import Mathlib

/-!
Shallow embedding of `packagetrack/carriers/amzl_interface.py`, the AMZL
(Amazon Logistics) carrier backend of the packagetrack library, together with
theorems settling the specification claims about it.

Pure string manipulation is translated directly from the Python source.  The
HTTP fetch and the BeautifulSoup DOM are external collaborators and are
modelled as oracles supplied by the caller: a fetch function returns the HTTP
outcome together with the parsed DOM of the response body.  Python exceptions
are modelled with `Except`.
-/

set_option autoImplicit false

namespace AMZL

/-- ASCII decimal digit: the characters matched by the regex class `\d`
(the source uses Python 2 `str` patterns, which are ASCII). -/
def isDigitChar (c : Char) : Bool := '0' ≤ c && c ≤ '9'

/-- ASCII word character, the regex class `\w`: letters, digits, underscore. -/
def isWordChar (c : Char) : Bool := c.isAlpha || isDigitChar c || c = '_'

/-- Consume exactly `n` decimal digits (`\d{n}`), returning the rest of the
input, or `none` when the input does not start with `n` digits. -/
def digits : Nat → List Char → Option (List Char)
  | 0, cs => some cs
  | _ + 1, [] => none
  | n + 1, c :: cs => if isDigitChar c then digits n cs else none

/-- Consume one expected literal character, or fail. -/
def expectChar (ch : Char) : List Char → Option (List Char)
  | [] => none
  | c :: cs => if c = ch then some cs else none

/-- The mandatory part of the tracking-number regex `\d{3}-\d{7}-\d{7}`:
consume it from the front of the input and return the remaining characters.
The optional group `(?::\w+)?` can always match the empty string, so
`re.match` succeeds exactly when this body matches a prefix. -/
def tnBody (cs : List Char) : Option (List Char) :=
  (digits 3 cs).bind fun cs1 =>
  (expectChar '-' cs1).bind fun cs2 =>
  (digits 7 cs2).bind fun cs3 =>
  (expectChar '-' cs3).bind fun cs4 =>
  digits 7 cs4

/-- `AMZLInterface.identify`: `bool(re.match(r'\d{3}-\d{7}-\d{7}(?::\w+)?', tn))`.
Python's `re.match` anchors at the start of the string only, so this is a
prefix match of the pattern. -/
def identify (tn : String) : Bool :=
  (tnBody tn.data).isSome

/-- Formalisation of the spec's pattern `\d{3}-\d{7}-\d{7}(:\w+)?` as a match
of the WHOLE string: the mandatory body followed either by nothing or by a
colon and one or more word characters. -/
def matchesTNPattern (cs : List Char) : Bool :=
  match tnBody cs with
  | none => false
  | some [] => true
  | some (c :: rest) => c = ':' && !rest.isEmpty && rest.all isWordChar

/-- Python `str.split(':')`: split on every colon, keeping empty segments
(`''.split(':') == ['']`). -/
def splitColon : List Char → List (List Char)
  | [] => [[]]
  | c :: cs =>
    if c = ':' then [] :: splitColon cs
    else
      match splitColon cs with
      | [] => [[c]]
      | p :: ps => (c :: p) :: ps

/-- A value in the tracking query: Python mixes the string segments of the
tracking number with the integer default `0`. -/
inductive QVal where
  | s (v : String)
  | n (v : Nat)
  deriving DecidableEq, Repr

/-- The keys of `AMZLInterface._url_template_keys`. -/
def urlTemplateKeys : List String := ["order_id", "item_id", "package_idx"]

/-- `AMZLInterface._parse_tracking_number`:
`dict(zip(self._url_template_keys, list(parts) + [0, 0, 0]))` where
`parts = tracking_number.split(':')`.  The dict is modelled as the
association list produced by `zip` (the three keys are distinct, so the
dict has exactly the zipped pairs; `zip` truncates at the shorter list). -/
def parse_tracking_number (tn : String) : List (String × QVal) :=
  List.zip urlTemplateKeys
    ((splitColon tn.data).map (fun p => QVal.s (String.mk p)) ++ [QVal.n 0, QVal.n 0, QVal.n 0])

/-- Python exceptions raised (or wrapped into library exceptions) by this
module: `TrackingApiFailure` and `TrackingNumberFailure` from
`carriers/errors.py`, plus the builtin `TypeError` and `IndexError`. -/
inductive PyExc where
  | apiFailure (msg : String)
  | numberFailure (msg : String)
  | typeError
  | indexError
  deriving DecidableEq, Repr

/-- Whitespace characters, for Python's `str.strip`/`str.split()` and the
regex class `\s` used for literal blanks in `strptime` formats. -/
def isSpaceChar (c : Char) : Bool :=
  c = ' ' || c = '\t' || c = '\n' || c = '\r' || c = '\x0b' || c = '\x0c'

/-- Python `str.strip()`: drop leading and trailing whitespace. -/
def pyStrip (s : String) : String :=
  String.mk (((s.data.dropWhile isSpaceChar).reverse.dropWhile isSpaceChar).reverse)

/-- The result of a successful `datetime.datetime.strptime`: the naive
datetime's components (the two formats used here carry no seconds). -/
structure Datetime where
  year : Nat
  month : Nat
  day : Nat
  hour : Nat
  minute : Nat
  deriving DecidableEq, Repr

/-- Numeric value of a list of decimal digit characters. -/
def natOfDigits (ds : List Char) : Nat :=
  ds.foldl (fun acc c => 10 * acc + (c.toNat - 48)) 0

/-- `strptime`'s `%I` directive, the regex group `(1[0-2]|0[1-9]|[1-9])`:
a one- or two-digit 12-hour clock hour. -/
def parseHour12 : List Char → Option (Nat × List Char)
  | [] => none
  | [c] => if '1' ≤ c && c ≤ '9' then some (c.toNat - 48, []) else none
  | c1 :: c2 :: rest =>
    if c1 = '1' && '0' ≤ c2 && c2 ≤ '2' then some (10 + (c2.toNat - 48), rest)
    else if c1 = '0' && '1' ≤ c2 && c2 ≤ '9' then some (c2.toNat - 48, rest)
    else if '1' ≤ c1 && c1 ≤ '9' then some (c1.toNat - 48, c2 :: rest)
    else none

/-- `strptime`'s `%M` directive, the regex group `([0-5]\d|\d)`. -/
def parseMinute : List Char → Option (Nat × List Char)
  | [] => none
  | [c] => if isDigitChar c then some (c.toNat - 48, []) else none
  | c1 :: c2 :: rest =>
    if '0' ≤ c1 && c1 ≤ '5' && isDigitChar c2 then
      some (10 * (c1.toNat - 48) + (c2.toNat - 48), rest)
    else if isDigitChar c1 then some (c1.toNat - 48, c2 :: rest)
    else none

/-- `strptime`'s `%d` directive, the regex group `(3[01]|[12]\d|0[1-9]|[1-9])`. -/
def parseDay : List Char → Option (Nat × List Char)
  | [] => none
  | [c] => if '1' ≤ c && c ≤ '9' then some (c.toNat - 48, []) else none
  | c1 :: c2 :: rest =>
    if c1 = '3' && (c2 = '0' || c2 = '1') then some (30 + (c2.toNat - 48), rest)
    else if (c1 = '1' || c1 = '2') && isDigitChar c2 then
      some (10 * (c1.toNat - 48) + (c2.toNat - 48), rest)
    else if c1 = '0' && '1' ≤ c2 && c2 ≤ '9' then some (c2.toNat - 48, rest)
    else if '1' ≤ c1 && c1 ≤ '9' then some (c1.toNat - 48, c2 :: rest)
    else none

/-- A literal blank in a `strptime` format matches one or more whitespace
characters (`\s+`). -/
def skipWs1 : List Char → Option (List Char)
  | [] => none
  | c :: cs => if isSpaceChar c then some (cs.dropWhile isSpaceChar) else none

/-- Strip a case-insensitive literal word from the front of the input. -/
def stripCI : List Char → List Char → Option (List Char)
  | [], cs => some cs
  | _ :: _, [] => none
  | p :: ps, c :: cs => if c.toLower = p.toLower then stripCI ps cs else none

/-- `strptime`'s `%p` directive: `AM` or `PM`, case-insensitively; returns
whether the marker was `PM`. -/
def parseAmPm (cs : List Char) : Option (Bool × List Char) :=
  match stripCI "AM".data cs with
  | some rest => some (false, rest)
  | none =>
    match stripCI "PM".data cs with
    | some rest => some (true, rest)
    | none => none

/-- Full English weekday names, for `%A` (the parsed weekday does not
influence the resulting datetime when a full date is present). -/
def weekdayNames : List String :=
  ["Wednesday", "Saturday", "Thursday", "Tuesday", "Monday", "Friday", "Sunday"]

/-- Try each name in turn as a case-insensitive prefix of the input. -/
def stripFirstNameCI : List String → List Char → Option (List Char)
  | [], _ => none
  | n :: ns, cs =>
    match stripCI n.data cs with
    | some rest => some rest
    | none => stripFirstNameCI ns cs

/-- Full English month names with their numbers, for `%B`. -/
def monthNames : List (String × Nat) :=
  [("September", 9), ("November", 11), ("December", 12), ("February", 2),
   ("January", 1), ("October", 10), ("August", 8), ("March", 3),
   ("April", 4), ("June", 6), ("July", 7), ("May", 5)]

/-- `strptime`'s `%B` directive: a full month name, case-insensitively. -/
def parseMonth : List (String × Nat) → List Char → Option (Nat × List Char)
  | [], _ => none
  | (n, v) :: ns, cs =>
    match stripCI n.data cs with
    | some rest => some (v, rest)
    | none => parseMonth ns cs

/-- Take up to `n` leading digits, returning them and the rest. -/
def takeDigits : Nat → List Char → List Char × List Char
  | 0, cs => ([], cs)
  | _ + 1, [] => ([], [])
  | n + 1, c :: cs =>
    if isDigitChar c then
      let (d, r) := takeDigits n cs
      (c :: d, r)
    else ([], c :: cs)

/-- `strptime`'s `%Y` directive: one to four decimal digits. -/
def parseYear (cs : List Char) : Option (Nat × List Char) :=
  match takeDigits 4 cs with
  | ([], _) => none
  | (ds, r) => some (natOfDigits ds, r)

def isLeapYear (y : Nat) : Bool :=
  y % 4 = 0 && (y % 100 ≠ 0 || y % 400 = 0)

/-- Length of a month, used by the `datetime` constructor's validity check. -/
def daysInMonth (y m : Nat) : Nat :=
  if m = 2 then (if isLeapYear y then 29 else 28)
  else if m = 4 || m = 6 || m = 9 || m = 11 then 30
  else 31

/-- Combine `%I` and `%p` into a 24-hour clock hour, as `_strptime` does. -/
def hour24 (h : Nat) (pm : Bool) : Nat :=
  if pm then (if h = 12 then 12 else h + 12)
  else (if h = 12 then 0 else h)

/-- `datetime.datetime.strptime(data, '%I:%M %p %A, %B %d %Y')`: `none` models
the `ValueError` raised when the data does not match (including trailing
unconverted data, or a day out of range for the month). -/
def strptimeTimeFmt (cs : List Char) : Option Datetime :=
  (parseHour12 cs).bind fun (h, cs) =>
  (expectChar ':' cs).bind fun cs =>
  (parseMinute cs).bind fun (mi, cs) =>
  (skipWs1 cs).bind fun cs =>
  (parseAmPm cs).bind fun (pm, cs) =>
  (skipWs1 cs).bind fun cs =>
  (stripFirstNameCI weekdayNames cs).bind fun cs =>
  (expectChar ',' cs).bind fun cs =>
  (skipWs1 cs).bind fun cs =>
  (parseMonth monthNames cs).bind fun (mo, cs) =>
  (skipWs1 cs).bind fun cs =>
  (parseDay cs).bind fun (d, cs) =>
  (skipWs1 cs).bind fun cs =>
  (parseYear cs).bind fun (y, cs) =>
  if cs.isEmpty && 1 ≤ y && d ≤ daysInMonth y mo then
    some ⟨y, mo, d, hour24 h pm, mi⟩
  else none

/-- `datetime.datetime.strptime(data, '%A, %B %d %Y')`: the date-only
fallback format; hour and minute default to zero. -/
def strptimeDateFmt (cs : List Char) : Option Datetime :=
  (stripFirstNameCI weekdayNames cs).bind fun cs =>
  (expectChar ',' cs).bind fun cs =>
  (skipWs1 cs).bind fun cs =>
  (parseMonth monthNames cs).bind fun (mo, cs) =>
  (skipWs1 cs).bind fun cs =>
  (parseDay cs).bind fun (d, cs) =>
  (skipWs1 cs).bind fun cs =>
  (parseYear cs).bind fun (y, cs) =>
  if cs.isEmpty && 1 ≤ y && d ≤ daysInMonth y mo then
    some ⟨y, mo, d, 0, 0⟩
  else none

/-- `AMZLInterface._parse_timestamp`.  The `year` argument stands for the
source's `year` parameter; its `None` default is filled with
`str(datetime.datetime.now().year)`, so a caller passing the current year
models the default.  The source's last-resort fallback is
`timestamp = datetime.datetime()`, and calling `datetime.datetime` with no
arguments raises `TypeError` (year, month and day are required), which
escapes the `except ValueError` handlers. -/
def parse_timestamp (timestamp : String) (year : String) : Except PyExc Datetime :=
  let full := timestamp ++ " " ++ year
  match strptimeTimeFmt full.data with
  | some dt => Except.ok dt
  | none =>
    match strptimeDateFmt full.data with
    | some dt => Except.ok dt
    | none => Except.error PyExc.typeError

/-- Helper for Python's substring test: does the haystack contain the needle
as a contiguous run. -/
def containsSub (needle : List Char) : List Char → Bool
  | [] => needle.isEmpty
  | c :: cs => needle.isPrefixOf (c :: cs) || containsSub needle cs

/-- Python's `needle in hay` on strings. -/
def strContains (hay needle : String) : Bool :=
  containsSub needle.data hay.data

/-- Python `str.split()` with no argument: split on runs of whitespace,
discarding empty segments. -/
def splitWsGo : List Char → List Char → List (List Char)
  | acc, [] => if acc.isEmpty then [] else [acc.reverse]
  | acc, c :: cs =>
    if isSpaceChar c then
      if acc.isEmpty then splitWsGo [] cs
      else acc.reverse :: splitWsGo [] cs
    else splitWsGo (c :: acc) cs

def splitWs (s : String) : List String :=
  (splitWsGo [] s.data).map String.mk

/-- The module-level `_find(tag, *args, **kwargs)`: the stripped text of the
selected element, or the empty string when the element is absent (the
`AttributeError` branch).  `none` models an absent element. -/
def findText : Option String → String
  | none => ""
  | some t => pyStrip t

/-- A sub-row of an event container: one element of
`container_tag.select('.a-spacing-large')`, carrying its class list and the
(optional) text of its time, message and location child elements. -/
structure SubRow where
  classes : List String
  timeText : Option String
  messageText : Option String
  locationText : Option String
  deriving DecidableEq, Repr

/-- A top-level event container: one element of
`soup.select('#tracking-events-container > * > .a-row')`, carrying its class
list, the (optional) text of its `.tracking-event-date` element, and its
sub-rows in document order (BeautifulSoup's `select` returns matches in
document order). -/
structure Container where
  classes : List String
  dateText : Option String
  subRows : List SubRow
  deriving DecidableEq, Repr

/-- The parsed response page as `_parse_tracking_response` consults it: the
optional texts of the six fixed-selector elements and the event containers in
document order.  The DOM itself is built by the external BeautifulSoup
library, so the model treats it as given. -/
structure Soup where
  trackingIdText : Option String
  primaryStatus : Option String
  secondaryStatus : Option String
  milestoneMessage : Option String
  exceptionSource : Option String
  exceptionMessage : Option String
  containers : List Container
  deriving DecidableEq, Repr

/-- `AMZLInterface._IGNORE_TAG_CLASSES`. -/
def IGNORE_TAG_CLASSES : List String :=
  ["tracking-event-carrier-header", "tracking-event-trackingId-text",
   "tracking-event-timezoneLabel"]

/-- The generator part of the event-list comprehension in
`_parse_tracking_response`: the containers kept by the denylist filter, and
within each, its kept sub-rows paired with the container's date text, all in
document order. -/
def selectRows (containers : List Container) : List (SubRow × Option String) :=
  (containers.filter fun c =>
      IGNORE_TAG_CLASSES.all fun attr => !(c.classes.contains attr)).flatMap fun c =>
    ((c.subRows.filter fun t =>
        IGNORE_TAG_CLASSES.all fun attr => !(t.classes.contains attr)).map fun t =>
      (t, c.dateText))

/-- Event selection as the spec words it: walk the containers in document
order, skipping every container whose class list intersects the denylist, and
within a kept container walk the sub-rows in document order, skipping every
sub-row whose class list intersects the denylist. -/
def selectRowsSpec (containers : List Container) : List (SubRow × Option String) :=
  containers.flatMap fun c =>
    if c.classes.any (fun cls => IGNORE_TAG_CLASSES.contains cls) then []
    else
      c.subRows.flatMap fun t =>
        if t.classes.any (fun cls => IGNORE_TAG_CLASSES.contains cls) then []
        else [(t, c.dateText)]

/-- One entry of `tracking_data['events']`. -/
structure RawEvent where
  timestamp : Datetime
  message : String
  location : String
  deriving DecidableEq, Repr

/-- The dict built by `_parse_tracking_response`, with keys renamed to Lean
identifiers (`primary-status` to `primaryStatus`, and so on). -/
structure TrackingData where
  id : String
  primaryStatus : String
  secondaryStatus : String
  milestoneMessage : String
  exceptionSource : String
  exceptionMessage : String
  events : List RawEvent
  deriving DecidableEq, Repr

/-- The event-list comprehension's left-to-right construction: each kept
sub-row's time text and its container's date text are joined with a blank,
stripped, and resolved; the first failing timestamp resolution propagates as
the comprehension's exception. -/
def buildEvents (year : String) : List (SubRow × Option String) → Except PyExc (List RawEvent)
  | [] => Except.ok []
  | (t, dateText) :: rest =>
    match parse_timestamp (pyStrip (findText t.timeText ++ " " ++ findText dateText)) year with
    | Except.error e => Except.error e
    | Except.ok ts =>
      match buildEvents year rest with
      | Except.error e => Except.error e
      | Except.ok evs =>
        Except.ok (RawEvent.mk ts (findText t.messageText) (findText t.locationText) :: evs)

/-- `AMZLInterface._parse_tracking_response`.  The `id` field is
`_find(soup, class_='carrierRelatedInfo-trackingId-text').split()[-1]`:
indexing `[-1]` into the empty word list raises `IndexError`.  The `year`
argument threads the current calendar year used by `_parse_timestamp`'s
default (`datetime.datetime.now().year`). -/
def parse_tracking_response (year : String) (soup : Soup) : Except PyExc TrackingData :=
  match (splitWs (findText soup.trackingIdText)).getLast? with
  | none => Except.error PyExc.indexError
  | some idVal =>
    match buildEvents year (selectRows soup.containers) with
    | Except.error e => Except.error e
    | Except.ok events =>
      Except.ok
        { id := idVal
          primaryStatus := findText soup.primaryStatus
          secondaryStatus := findText soup.secondaryStatus
          milestoneMessage := findText soup.milestoneMessage
          exceptionSource := findText soup.exceptionSource
          exceptionMessage := findText soup.exceptionMessage
          events := events }

/-- The outcome of `requests.get(tracking_url, timeout=10.0)` as this module
observes it: either the request raised (any transport-level exception), or a
response arrived with a status code, a raw body (for the marker substring
test) and the body's BeautifulSoup parse (the DOM is produced by the external
HTML library, so the oracle supplies it alongside the body). -/
inductive FetchResult where
  | transportError (msg : String)
  | response (status : Nat) (body : String) (soup : Soup)

/-- `AMZLInterface._get_tracking_data`.  URL construction only feeds the
query fields to the external HTTP client, so the model passes the query to
the fetch oracle directly.  `response.ok` is `status_code < 400`. -/
def get_tracking_data (fetch : List (String × QVal) → FetchResult) (year : String)
    (query : List (String × QVal)) : Except PyExc TrackingData :=
  match fetch query with
  | FetchResult.transportError msg => Except.error (PyExc.apiFailure msg)
  | FetchResult.response status body soup =>
    if status < 400 then
      if strContains body "carrierRelatedInfo-trackingId-text" then
        parse_tracking_response year soup
      else
        Except.error (PyExc.numberFailure "No shipment found")
    else
      Except.error (PyExc.apiFailure ("Amazon returned HTTP status: " ++ toString status))

/-- An event of the generic `TrackingInfo`, appended by
`create_event(location=..., timestamp=..., detail=...)`. -/
structure Event where
  location : String
  timestamp : Datetime
  detail : String
  deriving DecidableEq, Repr

/-- Modelled from the spec: the generic `TrackingInfo` type lives in
`packagetrack/data.py`, which is not among the sources here.  Per the spec's
data model it is identified by the tracking number and holds the ordered
(most recent first) event sequence, the delivered flag and, if delivered, a
delivery timestamp. -/
structure TrackingInfo where
  tracking_number : String
  events : List Event
  is_delivered : Bool
  delivery_date : Option Datetime
  deriving DecidableEq, Repr

/-- Modelled from the spec: the derived status text of a `TrackingInfo` is
the top (most recent, first-listed) event's status text, empty when there are
no events. -/
def TrackingInfo.status (info : TrackingInfo) : String :=
  (info.events.head?.map Event.detail).getD ""

/-- Modelled from the spec: `last_update` is the most recent event's
timestamp, i.e. the first-listed one, the sequence being most recent first;
absent when there are no events. -/
def TrackingInfo.last_update (info : TrackingInfo) : Option Datetime :=
  info.events.head?.map Event.timestamp

/-- Python `str.lower()`; ASCII case mapping suffices for the comparisons in
this module. -/
def pyLower (s : String) : String :=
  String.mk (s.data.map Char.toLower)

/-- `AMZLInterface.is_delivered` when a `tracking_info` is supplied: compare
its status text, lower-cased, against the literal `'delivered'` (when no
`tracking_info` is supplied the source first runs a full `track`). -/
def is_delivered_info (info : TrackingInfo) : Bool :=
  pyLower info.status == "delivered"

/-- `AMZLInterface.track`.  The line above `def track` in the source is the
bare expression statement `BaseInterface.require_valid_tracking_number`, not
a decorator (no `@`), so no tracking-number validation runs before the
fetch.  The `year` argument threads the current calendar year used by the
timestamp resolver's default. -/
def track (fetch : List (String × QVal) → FetchResult) (year : String)
    (tracking_number : String) : Except PyExc TrackingInfo :=
  match get_tracking_data fetch year (parse_tracking_number tracking_number) with
  | Except.error e => Except.error e
  | Except.ok data =>
    let info : TrackingInfo :=
      { tracking_number := tracking_number
        events := data.events.map fun e =>
          { location := e.location, timestamp := e.timestamp, detail := e.message }
        is_delivered := false
        delivery_date := none }
    let info2 : TrackingInfo := { info with is_delivered := is_delivered_info info }
    Except.ok
      (if info2.is_delivered then { info2 with delivery_date := info2.last_update }
       else info2)

/-- The success shape of `track`'s result as a function of the tracking
number and the appended event list: the delivered flag compares the top
event's detail text (the derived status) against `delivered`, and the
delivery date is filled from the top event's timestamp exactly when the flag
is set. -/
def mkInfo (tn : String) (evts : List Event) : TrackingInfo :=
  { tracking_number := tn
    events := evts
    is_delivered := pyLower ((evts.head?.map Event.detail).getD "") == "delivered"
    delivery_date :=
      if pyLower ((evts.head?.map Event.detail).getD "") == "delivered" then
        evts.head?.map Event.timestamp
      else none }

/-- A soup with every selector absent, for oracles whose response never
reaches parsing. -/
def emptySoup : Soup :=
  { trackingIdText := none, primaryStatus := none, secondaryStatus := none
    milestoneMessage := none, exceptionSource := none, exceptionMessage := none
    containers := [] }

/-- Fixture: the carrier-header container the page prepends, which is not a
tracking event. -/
def headerContainer : Container :=
  { classes := ["a-row", "tracking-event-carrier-header"]
    dateText := some "Monday, June 10"
    subRows := [{ classes := ["a-spacing-large"], timeText := some "9:00 AM",
                  messageText := some "Shipped with Amazon", locationText := none }] }

/-- Fixture: an ordinary container with two event sub-rows, most recent
first. -/
def ordinaryContainer : Container :=
  { classes := ["a-row"]
    dateText := some "Monday, June 10"
    subRows :=
      [{ classes := ["a-spacing-large"], timeText := some "3:15 PM",
         messageText := some "Delivered", locationText := some "Front door" },
       { classes := ["a-spacing-large"], timeText := some "11:00 AM",
         messageText := some "Out for delivery", locationText := some "Detroit, MI" }] }

/-- Fixture page: a header container followed by an ordinary container whose
top event's status text is `Delivered`. -/
def fixtureSoup : Soup :=
  { trackingIdText := some "Tracking ID: TBA123456789000"
    primaryStatus := some "Delivered"
    secondaryStatus := none
    milestoneMessage := none
    exceptionSource := none
    exceptionMessage := none
    containers := [headerContainer, ordinaryContainer] }

/-- The raw page data extracted from `fixtureSoup` with year 2024. -/
def fixtureData : TrackingData :=
  { id := "TBA123456789000"
    primaryStatus := "Delivered"
    secondaryStatus := ""
    milestoneMessage := ""
    exceptionSource := ""
    exceptionMessage := ""
    events :=
      [{ timestamp := ⟨2024, 6, 10, 15, 15⟩, message := "Delivered",
         location := "Front door" },
       { timestamp := ⟨2024, 6, 10, 11, 0⟩, message := "Out for delivery",
         location := "Detroit, MI" }] }

/-- A response body containing the tracking-id marker text. -/
def fixtureBody : String :=
  "response page with carrierRelatedInfo-trackingId-text marker"

/-- The `TrackingInfo` that `track` assembles from `fixtureSoup`. -/
def fixtureInfo : TrackingInfo :=
  { tracking_number := "111-2222222-3333333"
    events :=
      [{ location := "Front door", timestamp := ⟨2024, 6, 10, 15, 15⟩,
         detail := "Delivered" },
       { location := "Detroit, MI", timestamp := ⟨2024, 6, 10, 11, 0⟩,
         detail := "Out for delivery" }]
    is_delivered := true
    delivery_date := some ⟨2024, 6, 10, 15, 15⟩ }

/-- `digits n` succeeds exactly when the input starts with `n` digit
characters, and then returns the rest. -/
theorem digits_eq_some_iff (n : Nat) : ∀ cs r : List Char,
    digits n cs = some r ↔
      ∃ d : List Char, d.length = n ∧ d.all isDigitChar = true ∧ cs = d ++ r := by
  induction n with
  | zero =>
    intro cs r
    simp only [digits, Option.some.injEq]
    constructor
    · rintro rfl
      exact ⟨[], rfl, rfl, rfl⟩
    · rintro ⟨d, hd, _, rfl⟩
      rw [List.length_eq_zero] at hd
      simp [hd]
  | succ n ih =>
    intro cs r
    cases cs with
    | nil =>
      constructor
      · intro h
        simp [digits] at h
      · rintro ⟨d, hd, _, h⟩
        have := congrArg List.length h
        simp only [List.length_nil, List.length_append, hd] at this
        omega
    | cons c cs =>
      simp only [digits]
      by_cases hc : isDigitChar c = true
      · rw [if_pos hc, ih]
        constructor
        · rintro ⟨d, hd, hall, rfl⟩
          exact ⟨c :: d, by simp [hd], by simp [List.all_cons, hc, hall], rfl⟩
        · rintro ⟨d, hd, hall, h⟩
          cases d with
          | nil => simp at hd
          | cons d0 d =>
            simp only [List.cons_append, List.cons.injEq] at h
            obtain ⟨rfl, rfl⟩ := h
            refine ⟨d, by simpa using hd, ?_, rfl⟩
            simp only [List.all_cons, Bool.and_eq_true] at hall
            exact hall.2
      · rw [if_neg hc]
        constructor
        · intro h
          cases h
        · rintro ⟨d, hd, hall, h⟩
          cases d with
          | nil => simp at hd
          | cons d0 d =>
            simp only [List.cons_append, List.cons.injEq] at h
            obtain ⟨rfl, rfl⟩ := h
            simp only [List.all_cons, Bool.and_eq_true] at hall
            exact (hc hall.1).elim

theorem expectChar_eq_some_iff (ch : Char) (cs r : List Char) :
    expectChar ch cs = some r ↔ cs = ch :: r := by
  cases cs with
  | nil => simp [expectChar]
  | cons c cs =>
    simp only [expectChar]
    by_cases hc : c = ch
    · subst hc; simp
    · simp [hc, Ne.symm hc]

/-- Structural characterisation of a successful match of the mandatory body
`\d{3}-\d{7}-\d{7}`. -/
theorem tnBody_eq_some_iff (cs r : List Char) :
    tnBody cs = some r ↔
      ∃ a b c : List Char,
        a.length = 3 ∧ a.all isDigitChar = true ∧
        b.length = 7 ∧ b.all isDigitChar = true ∧
        c.length = 7 ∧ c.all isDigitChar = true ∧
        cs = a ++ '-' :: (b ++ '-' :: (c ++ r)) := by
  simp only [tnBody, Option.bind_eq_some, digits_eq_some_iff, expectChar_eq_some_iff]
  constructor
  · rintro ⟨cs1, ⟨a, ha, haX, rfl⟩, cs2, rfl, cs3, ⟨b, hb, hbX, rfl⟩, cs4, rfl, c, hc, hcX, rfl⟩
    exact ⟨a, b, c, ha, haX, hb, hbX, hc, hcX, rfl⟩
  · rintro ⟨a, b, c, ha, haX, hb, hbX, hc, hcX, rfl⟩
    exact ⟨'-' :: (b ++ '-' :: (c ++ r)), ⟨a, ha, haX, rfl⟩,
      b ++ '-' :: (c ++ r), rfl, '-' :: (c ++ r), ⟨b, hb, hbX, rfl⟩,
      c ++ r, rfl, c, hc, hcX, rfl⟩

/-- Splitting a list with no colon in it yields the single segment. -/
theorem splitColon_no_colon : ∀ a : List Char, ':' ∉ a → splitColon a = [a] := by
  intro a
  induction a with
  | nil => intro _; rfl
  | cons c cs ih =>
    intro h
    have hc : ¬(c = ':') := fun hc => h (by simp [hc])
    have hcs : ':' ∉ cs := fun hmem => h (List.mem_cons_of_mem _ hmem)
    simp only [splitColon, if_neg hc, ih hcs]

/-- Splitting at the first colon: a colon-free segment followed by a colon
splits off that segment. -/
theorem splitColon_append : ∀ a rest : List Char, ':' ∉ a →
    splitColon (a ++ ':' :: rest) = a :: splitColon rest := by
  intro a
  induction a with
  | nil => intro rest _; simp [splitColon]
  | cons c cs ih =>
    intro rest h
    have hc : ¬(c = ':') := fun hc => h (by simp [hc])
    have hcs : ':' ∉ cs := fun hmem => h (List.mem_cons_of_mem _ hmem)
    simp only [List.cons_append, splitColon, if_neg hc, List.append_eq, ih rest hcs]

/-- C3 counterexample input: `re.match` is anchored only at the start of the
string, so `identify` accepts a string with trailing junk after a matching
prefix, while the spec's pattern, read as a match of the whole string, rejects
it. -/
theorem C3_counterexample :
    identify "111-2222222-3333333x" = true ∧
      matchesTNPattern "111-2222222-3333333x".data = false := by
  decide

/-- C3 (amended): `identify s` is true iff some prefix of `s` matches the
pattern `\d{3}-\d{7}-\d{7}(:\w+)?` — the regex is anchored at the start of the
string only, so characters after a matching prefix do not make `identify`
reject. -/
theorem C3_identify_matches_prefix_of_pattern (s : String) :
    identify s = true ↔
      ∃ p r : List Char, s.data = p ++ r ∧ matchesTNPattern p = true := by
  constructor
  · intro h
    rw [identify, Option.isSome_iff_exists] at h
    obtain ⟨r0, hr0⟩ := h
    rw [tnBody_eq_some_iff] at hr0
    obtain ⟨a, b, c, ha, haX, hb, hbX, hc, hcX, hs⟩ := hr0
    refine ⟨a ++ '-' :: (b ++ '-' :: c), r0, by simpa [List.append_assoc] using hs, ?_⟩
    have hbody : tnBody (a ++ '-' :: (b ++ '-' :: c)) = some [] := by
      rw [tnBody_eq_some_iff]
      exact ⟨a, b, c, ha, haX, hb, hbX, hc, hcX, by simp⟩
    unfold matchesTNPattern
    rw [hbody]
  · rintro ⟨p, r, hs, hp⟩
    unfold matchesTNPattern at hp
    cases htb : tnBody p with
    | none => rw [htb] at hp; simp at hp
    | some rest =>
      rw [tnBody_eq_some_iff] at htb
      obtain ⟨a, b, c, ha, haX, hb, hbX, hc, hcX, rfl⟩ := htb
      rw [identify, Option.isSome_iff_exists]
      refine ⟨rest ++ r, ?_⟩
      rw [tnBody_eq_some_iff]
      refine ⟨a, b, c, ha, haX, hb, hbX, hc, hcX, ?_⟩
      rw [hs]
      simp [List.append_assoc]

/-- C7: tracking-number decomposition splits on `:` and maps the segments
positionally onto `order_id`, `item_id`, `package_idx`, missing trailing
segments defaulting to the integer `0`; in particular on the spec's two
example inputs. -/
theorem C7_parse_tracking_number_positional :
    (parse_tracking_number "111-2222222-3333333" =
      [("order_id", QVal.s "111-2222222-3333333"),
       ("item_id", QVal.n 0), ("package_idx", QVal.n 0)]) ∧
    (parse_tracking_number "111-2222222-3333333:ABC:5" =
      [("order_id", QVal.s "111-2222222-3333333"),
       ("item_id", QVal.s "ABC"), ("package_idx", QVal.s "5")]) ∧
    (∀ a : List Char, ':' ∉ a →
      parse_tracking_number (String.mk a) =
        [("order_id", QVal.s (String.mk a)),
         ("item_id", QVal.n 0), ("package_idx", QVal.n 0)]) ∧
    (∀ a b : List Char, ':' ∉ a → ':' ∉ b →
      parse_tracking_number (String.mk (a ++ ':' :: b)) =
        [("order_id", QVal.s (String.mk a)),
         ("item_id", QVal.s (String.mk b)), ("package_idx", QVal.n 0)]) ∧
    (∀ a b c : List Char, ':' ∉ a → ':' ∉ b → ':' ∉ c →
      parse_tracking_number (String.mk (a ++ ':' :: (b ++ ':' :: c))) =
        [("order_id", QVal.s (String.mk a)),
         ("item_id", QVal.s (String.mk b)), ("package_idx", QVal.s (String.mk c))]) := by
  refine ⟨by decide, by decide, ?_, ?_, ?_⟩
  · intro a ha
    simp [parse_tracking_number, urlTemplateKeys, splitColon_no_colon a ha, List.zip]
  · intro a b ha hb
    simp [parse_tracking_number, urlTemplateKeys, splitColon_append a _ ha,
      splitColon_no_colon b hb, List.zip]
  · intro a b c ha hb hc
    simp [parse_tracking_number, urlTemplateKeys, splitColon_append a _ ha,
      splitColon_append b _ hb, splitColon_no_colon c hc, List.zip]

/-- C7 witness: the universally quantified parts of
`C7_parse_tracking_number_positional` applied at concrete colon-free
segments. -/
theorem C7_parse_tracking_number_positional_witness :
    parse_tracking_number (String.mk (['A'] ++ ':' :: (['B'] ++ ':' :: ['C']))) =
      [("order_id", QVal.s (String.mk ['A'])),
       ("item_id", QVal.s (String.mk ['B'])), ("package_idx", QVal.s (String.mk ['C']))] :=
  C7_parse_tracking_number_positional.2.2.2.2 ['A'] ['B'] ['C']
    (by decide) (by decide) (by decide)

/-- C10: for every input string the query has exactly the three keys
`order_id`, `item_id`, `package_idx` (in that order), and any segments beyond
the third are silently discarded. -/
theorem C10_query_three_keys_extra_discarded :
    (∀ s : String, (parse_tracking_number s).map Prod.fst =
      ["order_id", "item_id", "package_idx"]) ∧
    (∀ a b c r : List Char, ':' ∉ a → ':' ∉ b → ':' ∉ c →
      parse_tracking_number (String.mk (a ++ ':' :: (b ++ ':' :: (c ++ ':' :: r)))) =
        [("order_id", QVal.s (String.mk a)),
         ("item_id", QVal.s (String.mk b)), ("package_idx", QVal.s (String.mk c))]) := by
  constructor
  · intro s
    have hlen : urlTemplateKeys.length ≤
        ((splitColon s.data).map (fun p => QVal.s (String.mk p)) ++
          [QVal.n 0, QVal.n 0, QVal.n 0]).length := by
      simp [urlTemplateKeys]
    simpa [urlTemplateKeys] using
      List.map_fst_zip _ _ hlen
  · intro a b c r ha hb hc
    simp [parse_tracking_number, urlTemplateKeys, splitColon_append a _ ha,
      splitColon_append b _ hb, splitColon_append c _ hc, List.zip]

/-- C10 witness: the two parts of `C10_query_three_keys_extra_discarded` at a
concrete input with five segments. -/
theorem C10_query_three_keys_extra_discarded_witness :
    (parse_tracking_number "x" ).map Prod.fst = ["order_id", "item_id", "package_idx"] ∧
    parse_tracking_number (String.mk (['A'] ++ ':' :: (['B'] ++ ':' :: (['C'] ++ ':' :: ['D', ':', 'E'])))) =
      [("order_id", QVal.s (String.mk ['A'])),
       ("item_id", QVal.s (String.mk ['B'])), ("package_idx", QVal.s (String.mk ['C']))] :=
  ⟨C10_query_three_keys_extra_discarded.1 "x",
   C10_query_three_keys_extra_discarded.2 ['A'] ['B'] ['C'] ['D', ':', 'E']
     (by decide) (by decide) (by decide)⟩

/-- C9: the timestamp resolver appends the given year and tries the
12-hour-time format first, then the date-only format:
`"3:15 PM Monday, June 10"` with year `"2024"` resolves to
June 10 2024 at 15:15, and `"Monday, June 10"` with year `"2024"` resolves to
June 10 2024 with the time-of-day components zero. -/
theorem C9_resolve_timestamp_two_formats :
    parse_timestamp "3:15 PM Monday, June 10" "2024" =
      Except.ok ⟨2024, 6, 10, 15, 15⟩ ∧
    parse_timestamp "Monday, June 10" "2024" =
      Except.ok ⟨2024, 6, 10, 0, 0⟩ := by
  constructor <;> rfl

/-- C2: on an input that matches neither format the resolver is not total —
the source falls back to `datetime.datetime()`, which raises `TypeError`
instead of producing a value, aborting normalization. -/
theorem C2_resolver_raises_when_both_formats_fail :
    parse_timestamp "not a timestamp" "2024" = Except.error PyExc.typeError := by
  rfl

/-- Keeping an element because none of the denylist entries occurs among its
classes is the complement of its class list intersecting the denylist. -/
theorem all_not_contains_eq (l m : List String) :
    (l.all fun a => !(m.contains a)) = !(m.any fun c => l.contains c) := by
  rw [Bool.eq_iff_iff]
  simp only [List.all_eq_true, Bool.not_eq_true', Bool.not_eq_true, List.any_eq_false]
  constructor
  · intro h c hc
    cases hx : l.contains c with
    | false => rfl
    | true =>
      have h1 : m.contains c = false := h c (List.elem_iff.mp hx)
      have h2 : m.contains c = true := List.elem_iff.mpr hc
      rw [h1] at h2
      exact absurd h2 (by decide)
  · intro h a ha
    cases hx : m.contains a with
    | false => rfl
    | true =>
      have h1 : l.contains a = false := h a (List.elem_iff.mp hx)
      have h2 : l.contains a = true := List.elem_iff.mpr ha
      rw [h1] at h2
      exact absurd h2 (by decide)

/-- Fuse a filter into a flatMap. -/
theorem filter_flatMap_eq {α β : Type} (l : List α) (p : α → Bool) (f : α → List β) :
    (l.filter p).flatMap f = l.flatMap fun x => if p x then f x else [] := by
  induction l with
  | nil => rfl
  | cons c cs ih =>
    rw [List.filter_cons]
    by_cases h : p c <;> simp [h, ih]

/-- Fuse a filter into a map, as a flatMap. -/
theorem filter_map_eq {α β : Type} (l : List α) (p : α → Bool) (f : α → β) :
    (l.filter p).map f = l.flatMap fun x => if p x then [f x] else [] := by
  induction l with
  | nil => rfl
  | cons c cs ih =>
    rw [List.filter_cons]
    by_cases h : p c <;> simp [h, ih]

theorem bnot_ite_eq {β : Type} (b : Bool) (A B : β) :
    (if (!b) then A else B) = if b then B else A := by
  cases b <;> rfl

/-- The source's filter-comprehension equals the spec's
skip-if-class-list-intersects walk, container order then sub-row order
preserved. -/
theorem selectRows_eq_spec (containers : List Container) :
    selectRows containers = selectRowsSpec containers := by
  unfold selectRows selectRowsSpec
  rw [filter_flatMap_eq]
  have hrow : ∀ c : Container,
      ((c.subRows.filter fun t =>
          IGNORE_TAG_CLASSES.all fun attr => !(t.classes.contains attr)).map fun t =>
        (t, c.dateText)) =
        c.subRows.flatMap fun t =>
          if t.classes.any (fun cls => IGNORE_TAG_CLASSES.contains cls) then []
          else [(t, c.dateText)] := by
    intro c
    rw [filter_map_eq]
    refine congrArg _ (funext fun t => ?_)
    rw [all_not_contains_eq, bnot_ite_eq]
  have hcont : ∀ c : Container,
      (if (IGNORE_TAG_CLASSES.all fun attr => !(c.classes.contains attr)) then
        ((c.subRows.filter fun t =>
            IGNORE_TAG_CLASSES.all fun attr => !(t.classes.contains attr)).map fun t =>
          (t, c.dateText))
      else ([] : List (SubRow × Option String))) =
      (if c.classes.any (fun cls => IGNORE_TAG_CLASSES.contains cls) then []
       else c.subRows.flatMap fun t =>
         if t.classes.any (fun cls => IGNORE_TAG_CLASSES.contains cls) then []
         else [(t, c.dateText)]) := by
    intro c
    rw [all_not_contains_eq, bnot_ite_eq, hrow c]
  simp only [hcont]

/-- C8: event extraction keeps exactly the containers and sub-rows whose
class list does not intersect the denylist, in document order (container
order, then sub-row order; no reordering) — the source's selection equals the
spec's skip-walk on every parsed page — and on the fixture page with one
header-class container and one ordinary container with two sub-rows it
produces exactly the ordinary container's two events, in document order. -/
theorem C8_event_extraction_denylist_and_order :
    (∀ containers : List Container, selectRows containers = selectRowsSpec containers) ∧
    parse_tracking_response "2024" fixtureSoup = Except.ok fixtureData :=
  ⟨selectRows_eq_spec, by rfl⟩

/-- C6: a non-success HTTP status (`response.ok` false, i.e. status ≥ 400)
makes `track` fail with `TrackingApiFailure` carrying the status code; the
body and its parse are arbitrary and unused, so no parsing is attempted. -/
theorem C6_http_error_api_failure (status : Nat) (body : String) (soup : Soup)
    (year tn : String) (h : 400 ≤ status) :
    track (fun _ => FetchResult.response status body soup) year tn =
      Except.error (PyExc.apiFailure ("Amazon returned HTTP status: " ++ toString status)) := by
  have hlt : ¬ status < 400 := by omega
  simp [track, get_tracking_data, hlt]

/-- C6 witness: HTTP 503. -/
theorem C6_http_error_api_failure_witness :
    track (fun _ => FetchResult.response 503 "irrelevant body" emptySoup) "2024"
        "111-2222222-3333333" =
      Except.error (PyExc.apiFailure ("Amazon returned HTTP status: " ++ toString 503)) :=
  C6_http_error_api_failure 503 "irrelevant body" emptySoup "2024" "111-2222222-3333333"
    (by omega)

/-- C5: an HTTP-successful response whose body lacks the marker text
`carrierRelatedInfo-trackingId-text` makes `track` fail with
`TrackingNumberFailure` (`No shipment found`); the parse of the body is
arbitrary and unused, so no further parsing is performed. -/
theorem C5_missing_marker_number_failure (status : Nat) (body : String) (soup : Soup)
    (year tn : String) (hok : status < 400)
    (hmark : strContains body "carrierRelatedInfo-trackingId-text" = false) :
    track (fun _ => FetchResult.response status body soup) year tn =
      Except.error (PyExc.numberFailure "No shipment found") := by
  simp [track, get_tracking_data, hok, hmark]

/-- C5 witness: HTTP 200 with a marker-free body. -/
theorem C5_missing_marker_number_failure_witness :
    track (fun _ => FetchResult.response 200 "hello" emptySoup) "2024"
        "111-2222222-3333333" =
      Except.error (PyExc.numberFailure "No shipment found") :=
  C5_missing_marker_number_failure 200 "hello" emptySoup "2024" "111-2222222-3333333"
    (by omega) (by decide)

/-- C1: the guard line above `def track` in the source is a bare expression
statement, not a decorator, so a tracking number the recognizer rejects is
not stopped before the fetch: with a fetch oracle answering HTTP 503,
`track "invalid"` surfaces the fetch's `TrackingApiFailure` — the fetch was
performed and no validation error preceded it. -/
theorem C1_track_fetches_despite_invalid_number :
    identify "invalid" = false ∧
    track (fun _ => FetchResult.response 503 "" emptySoup) "2024" "invalid" =
      Except.error (PyExc.apiFailure "Amazon returned HTTP status: 503") := by
  constructor
  · decide
  · rfl

/-- A successful `track` result always has the `mkInfo` shape. -/
theorem track_ok_shape (fetch : List (String × QVal) → FetchResult)
    (year tn : String) (info : TrackingInfo)
    (h : track fetch year tn = Except.ok info) :
    ∃ evts : List Event, info = mkInfo tn evts := by
  unfold track at h
  cases hgd : get_tracking_data fetch year (parse_tracking_number tn) with
  | error e => rw [hgd] at h; cases h
  | ok data =>
    rw [hgd] at h
    simp only [Except.ok.injEq] at h
    refine ⟨data.events.map fun e =>
      { location := e.location, timestamp := e.timestamp, detail := e.message }, ?_⟩
    rw [← h]
    by_cases hd : is_delivered_info
        { tracking_number := tn
          events := data.events.map fun e =>
            { location := e.location, timestamp := e.timestamp, detail := e.message }
          is_delivered := false
          delivery_date := none } = true
    · have hB : (pyLower (((data.events.map fun e =>
          ({ location := e.location, timestamp := e.timestamp, detail := e.message } : Event)).head?.map
            Event.detail).getD "") == "delivered") = true := hd
      rw [beq_iff_eq] at hB
      rw [if_pos (by exact hd)]
      simp only [List.head?_map, Option.map_map] at hB
      simp [mkInfo, TrackingInfo.last_update, TrackingInfo.status, is_delivered_info, hB]
    · have hB : (pyLower (((data.events.map fun e =>
          ({ location := e.location, timestamp := e.timestamp, detail := e.message } : Event)).head?.map
            Event.detail).getD "") == "delivered") = false := by
        cases hx : (pyLower (((data.events.map fun e =>
            ({ location := e.location, timestamp := e.timestamp, detail := e.message } : Event)).head?.map
              Event.detail).getD "") == "delivered") with
        | false => rfl
        | true => exact absurd hx (by exact hd)
      have hP : ¬ pyLower (((data.events.map fun e =>
          ({ location := e.location, timestamp := e.timestamp, detail := e.message } : Event)).head?.map
            Event.detail).getD "") = "delivered" := by
        intro heq
        rw [← beq_iff_eq] at heq
        rw [heq] at hB
        exact absurd hB (by decide)
      rw [if_neg (by exact hd)]
      simp only [List.head?_map, Option.map_map] at hP
      simp [mkInfo, TrackingInfo.status, is_delivered_info, hP]

/-- C4: every `TrackingInfo` that `track` returns has its delivered flag set
iff the derived status text equals `delivered` case-insensitively; the
delivery date is set iff the flag is, and equals the first-listed (most
recent) event's timestamp. -/
theorem C4_delivered_invariant (fetch : List (String × QVal) → FetchResult)
    (year tn : String) (info : TrackingInfo)
    (h : track fetch year tn = Except.ok info) :
    (info.is_delivered = true ↔ pyLower info.status = "delivered") ∧
    (info.delivery_date.isSome = true ↔ info.is_delivered = true) ∧
    (∀ e es, info.events = e :: es → info.is_delivered = true →
      info.delivery_date = some e.timestamp) := by
  obtain ⟨evts, rfl⟩ := track_ok_shape fetch year tn info h
  refine ⟨?_, ?_, ?_⟩
  · simp [mkInfo, TrackingInfo.status, beq_iff_eq]
  · by_cases hB : (pyLower ((evts.head?.map Event.detail).getD "") == "delivered") = true
    · cases evts with
      | nil => exact absurd hB (by decide)
      | cons e es => simp [mkInfo, hB]
    · have hB' : (pyLower ((evts.head?.map Event.detail).getD "") == "delivered") = false := by
        cases hx : (pyLower ((evts.head?.map Event.detail).getD "") == "delivered") with
        | false => rfl
        | true => exact absurd hx hB
      simp [mkInfo, hB']
  · intro e es hev hdel
    simp only [mkInfo] at hev hdel ⊢
    subst hev
    simp only [List.head?_cons, Option.map_some'] at hdel ⊢
    have hdel' : pyLower e.detail = "delivered" := by simpa using hdel
    simp [hdel']

/-- C4 witness: the invariant at the concrete fixture run of `track`, whose
top event is `Delivered`. -/
theorem C4_delivered_invariant_witness :
    (fixtureInfo.is_delivered = true ↔ pyLower fixtureInfo.status = "delivered") ∧
    (fixtureInfo.delivery_date.isSome = true ↔ fixtureInfo.is_delivered = true) ∧
    (∀ e es, fixtureInfo.events = e :: es → fixtureInfo.is_delivered = true →
      fixtureInfo.delivery_date = some e.timestamp) :=
  C4_delivered_invariant (fun _ => FetchResult.response 200 fixtureBody fixtureSoup)
    "2024" "111-2222222-3333333" fixtureInfo (by rfl)

end AMZL
